import Mathlib

/-!
Verification of the venue telemetry publisher scripts
(`pulse-publisher.py`, `jimmyneutron-rpi-publisher.py`,
`rpi-sensor-publisher.py`) against their design specification.

Python strings are embedded as `List Char`, JSON numbers as `ℚ`,
JSON integers as `ℤ`, and a raw JSON document as a record of
optional fields (one field per key the script reads with
`dict.get`).  Fallible I/O (file read, HTTP request) is embedded by
passing the outcome of the read as an `Except`/`Option` argument.
-/

set_option maxHeartbeats 1000000

/-- Python's whitespace set for `str.strip()`: space, tab, newline,
carriage return, vertical tab, form feed. -/
def pySpace (c : Char) : Bool :=
  c = ' ' || c = '\t' || c = '\n' || c = '\x0d' || c = '\x0b' || c = '\x0c'

/-- Embedding of Python `str.strip()`: drop leading and trailing
whitespace characters. -/
def pyStrip (s : List Char) : List Char :=
  ((s.dropWhile pySpace).reverse.dropWhile pySpace).reverse

/-- Split a string at the first occurrence of `sep`, returning the
parts before and after it, or `none` when `sep` does not occur.
`splitFirst sep s = some (a, b)` corresponds to Python's
`s.split(sep, 1) == [a, b]` (and `sep in s`); `none` corresponds to
`s.split(sep, 1) == [s]` (and `sep not in s`). -/
def splitFirst (sep : List Char) : List Char → Option (List Char × List Char)
  | [] => if sep.isPrefixOf ([] : List Char) then some ([], []) else none
  | c :: cs =>
    if sep.isPrefixOf (c :: cs) then some ([], (c :: cs).drop sep.length)
    else
      match splitFirst sep cs with
      | some (a, b) => some (c :: a, b)
      | none => none

/-- If `splitFirst` finds a split, the string decomposes as
`a ++ sep ++ b`. -/
theorem splitFirst_decomp (sep : List Char) :
    ∀ (s a b : List Char), splitFirst sep s = some (a, b) → s = a ++ sep ++ b := by
  intro s
  induction s with
  | nil =>
    intro a b h
    simp only [splitFirst] at h
    cases hp : sep.isPrefixOf ([] : List Char) with
    | false => simp [hp] at h
    | true =>
      have hsep : sep = [] := by
        have := List.isPrefixOf_iff_prefix.mp hp
        simpa using this.length_le
      simp only [hp, if_true, Option.some.injEq, Prod.mk.injEq] at h
      obtain ⟨h1, h2⟩ := h
      subst h1; subst h2
      simp [hsep]
  | cons c cs ih =>
    intro a b h
    simp only [splitFirst] at h
    cases hp : sep.isPrefixOf (c :: cs) with
    | true =>
      simp only [hp, if_true, Option.some.injEq, Prod.mk.injEq] at h
      obtain ⟨h1, h2⟩ := h
      subst h1; subst h2
      have hpre : sep <+: c :: cs := List.isPrefixOf_iff_prefix.mp hp
      obtain ⟨t, ht⟩ := hpre
      have hdrop : (c :: cs).drop sep.length = t := by
        rw [← ht, List.drop_left]
      rw [hdrop, List.nil_append, ht]
    | false =>
      simp only [hp, Bool.false_eq_true, if_false] at h
      cases hsf : splitFirst sep cs with
      | none => simp [hsf] at h
      | some p =>
        obtain ⟨a', b'⟩ := p
        simp only [hsf, Option.some.injEq, Prod.mk.injEq] at h
        obtain ⟨h1, h2⟩ := h
        subst h1; subst h2
        have := ih a' b' hsf
        rw [this]
        simp

/-- The split found by `splitFirst` is at the *first* occurrence:
`sep` is not a prefix of any earlier suffix. -/
theorem splitFirst_min (sep : List Char) :
    ∀ (s a b : List Char), splitFirst sep s = some (a, b) →
      ∀ j, j < a.length → ¬ (sep.isPrefixOf (s.drop j) = true) := by
  intro s
  induction s with
  | nil =>
    intro a b h j hj
    simp only [splitFirst] at h
    cases hp : sep.isPrefixOf ([] : List Char) with
    | false => simp [hp] at h
    | true =>
      simp only [hp, if_true, Option.some.injEq, Prod.mk.injEq] at h
      obtain ⟨h1, h2⟩ := h
      subst h1
      simp at hj
  | cons c cs ih =>
    intro a b h j hj
    simp only [splitFirst] at h
    cases hp : sep.isPrefixOf (c :: cs) with
    | true =>
      simp only [hp, if_true, Option.some.injEq, Prod.mk.injEq] at h
      obtain ⟨h1, h2⟩ := h
      subst h1
      simp at hj
    | false =>
      simp only [hp, Bool.false_eq_true, if_false] at h
      cases hsf : splitFirst sep cs with
      | none => simp [hsf] at h
      | some p =>
        obtain ⟨a', b'⟩ := p
        simp only [hsf, Option.some.injEq, Prod.mk.injEq] at h
        obtain ⟨h1, h2⟩ := h
        subst h1
        cases j with
        | zero => simp [hp]
        | succ j' =>
          simp only [List.length_cons, Nat.succ_lt_succ_iff] at hj
          simpa using ih a' b' hsf j' hj

/-- If `splitFirst` finds no split, `sep` occurs nowhere in the
string (given `sep ≠ []`). -/
theorem splitFirst_none (sep : List Char) (hsep : sep ≠ []) :
    ∀ (s : List Char), splitFirst sep s = none →
      ∀ j, ¬ (sep.isPrefixOf (s.drop j) = true) := by
  intro s
  induction s with
  | nil =>
    intro _ j hj
    rw [List.drop_nil] at hj
    have := List.isPrefixOf_iff_prefix.mp hj
    exact hsep (by simpa using this.length_le)
  | cons c cs ih =>
    intro h j
    simp only [splitFirst] at h
    cases hp : sep.isPrefixOf (c :: cs) with
    | true => simp [hp] at h
    | false =>
      simp only [hp, Bool.false_eq_true, if_false] at h
      cases hsf : splitFirst sep cs with
      | some p => simp [hsf] at h
      | none =>
        cases j with
        | zero => simp [hp]
        | succ j' => simpa using ih hsf j'

/-- `splitFirst` does find a split whenever an occurrence exists
somewhere in the string. -/
theorem splitFirst_isSome_of_occurs (sep : List Char) (hsep : sep ≠ [])
    (s : List Char) (j : ℕ) (hj : sep.isPrefixOf (s.drop j) = true) :
    (splitFirst sep s).isSome := by
  cases hsf : splitFirst sep s with
  | none => exact absurd hj (splitFirst_none sep hsep s hsf j)
  | some p => simp

/-- Characterisation of `splitFirst` as the split at the first
occurrence: if `s = a ++ sep ++ b` and `sep` occurs at no position
strictly before `a.length`, then `splitFirst` returns exactly
`(a, b)`. -/
theorem splitFirst_eq_of_first_occurrence (sep : List Char) (hsep : sep ≠ [])
    (s a b : List Char) (hdecomp : s = a ++ sep ++ b)
    (hmin : ∀ j, j < a.length → ¬ (sep.isPrefixOf (s.drop j) = true)) :
    splitFirst sep s = some (a, b) := by
  have hocc : sep.isPrefixOf (s.drop a.length) = true := by
    rw [hdecomp, List.append_assoc, List.drop_left]
    exact List.isPrefixOf_iff_prefix.mpr ⟨b, rfl⟩
  have hsome := splitFirst_isSome_of_occurs sep hsep s a.length hocc
  cases hsf : splitFirst sep s with
  | none => rw [hsf] at hsome; simp at hsome
  | some p =>
    obtain ⟨a', b'⟩ := p
    have hdecomp' := splitFirst_decomp sep s a' b' hsf
    have hocc' : sep.isPrefixOf (s.drop a'.length) = true := by
      rw [hdecomp', List.append_assoc, List.drop_left]
      exact List.isPrefixOf_iff_prefix.mpr ⟨b', rfl⟩
    have hmin' := splitFirst_min sep s a' b' hsf
    have hle : a.length ≤ a'.length := by
      by_contra hlt
      exact hmin a'.length (by omega) hocc'
    have hge : a'.length ≤ a.length := by
      by_contra hlt
      exact hmin' a.length (by omega) hocc
    have hlen : a'.length = a.length := le_antisymm hge hle
    have heq : a' ++ (sep ++ b') = a ++ (sep ++ b) := by
      rw [← List.append_assoc, ← List.append_assoc, ← hdecomp', ← hdecomp]
    obtain ⟨ha, hb⟩ := List.append_inj heq (by omega)
    have hb' : b' = b := by
      obtain ⟨-, h2⟩ := List.append_inj hb rfl
      exact h2
    rw [ha, hb']

/-!
## Shared data model

The canonical message groups shared by all three scripts.
Timestamps are generated from the wall clock at assembly time and
play no role in any claim, so they are not modelled.
-/

/-- The `occupancy` group of the outbound message. -/
structure Occupancy where
  current : ℤ
  entries : ℤ
  exits : ℤ
  capacity : ℤ
deriving DecidableEq

/-- The `spotify` group of the outbound message: the scripts use the
key `current_song` for the track title. -/
structure Spotify where
  current_song : List Char
  artist : List Char
  album_art : Option (List Char)
deriving DecidableEq

/-- The five-field sensors record used by the HTTP-API and
mock-only variants (no `pressure` field). -/
structure SensorValues where
  sound_level : ℚ
  light_level : ℚ
  indoor_temperature : ℚ
  outdoor_temperature : ℚ
  humidity : ℚ
deriving DecidableEq

/-!
## Shared-file variant: `pulse-publisher.py`
-/

namespace Pulse

/-- `VENUE_CAPACITY = 400` (configuration constant). -/
def VENUE_CAPACITY : ℤ := 400

/-- `PUBLISH_INTERVAL = 15` seconds (configuration constant). -/
def PUBLISH_INTERVAL : ℕ := 15

/-- The raw JSON document read from `/home/pi/shared_data.json`,
embedded as one optional field per key the script reads (plus the
other keys shown in the docstring example).  `none` means the key
is absent from the document. -/
structure Raw where
  entries : Option ℤ := none
  exits : Option ℤ := none
  lux : Option ℚ := none
  avg_db : Option ℚ := none
  peak_db : Option ℚ := none
  temperature_c : Option ℚ := none
  temperature_f : Option ℚ := none
  humidity : Option ℚ := none
  pressure : Option ℚ := none
  current_song : Option (List Char) := none
deriving DecidableEq

/-- Lines 70-77 of `pulse-publisher.py`: the `sensors` dict, built
with `data.get(key, 0)` for every field (including `pressure`),
embedded as an association list in the dict's insertion order. -/
def sensors (d : Raw) : List (String × ℚ) :=
  [("sound_level", d.avg_db.getD 0),
   ("light_level", d.lux.getD 0),
   ("indoor_temperature", d.temperature_f.getD 0),
   ("outdoor_temperature", d.temperature_f.getD 0),
   ("humidity", d.humidity.getD 0),
   ("pressure", d.pressure.getD 0)]

/-- Lines 79-85: the `occupancy` dict.  `current` is computed as
`entries - exits` with each counter defaulted to 0; `capacity` is
the static configuration constant. -/
def occupancy (d : Raw) : Occupancy :=
  { current := d.entries.getD 0 - d.exits.getD 0
  , entries := d.entries.getD 0
  , exits := d.exits.getD 0
  , capacity := VENUE_CAPACITY }

/-- The sentinel tested with `current_song.startswith("Error")`. -/
def errorSentinel : List Char := "Error".data

/-- The separator `" - "` used by `current_song.split(" - ", 1)`. -/
def separator : List Char := " - ".data

/-- Lines 87-104: the `spotify` group derived from the raw
`current_song` string.  Python's `current_song and not
current_song.startswith("Error")` guard becomes the `if`; the
`" - " in current_song` test together with `split(" - ", 1)`
becomes the match on `splitFirst` (see `splitFirst_none` /
`splitFirst_isSome_of_occurs` for the correspondence). -/
def spotify_of (cs : List Char) : Option Spotify :=
  if cs ≠ [] ∧ ¬ (errorSentinel.isPrefixOf cs = true) then
    match splitFirst separator cs with
    | some (a, b) =>
        some { current_song := pyStrip a, artist := pyStrip b, album_art := none }
    | none =>
        some { current_song := cs, artist := "Unknown".data, album_art := none }
  else none

/-- The three `except` branches of `read_sensor_data` (lines
108-119): `FileNotFoundError`, `json.JSONDecodeError`, and the
catch-all `Exception`. -/
inductive SourceError
  | fileMissing
  | malformedJson
  | ioFailure
deriving DecidableEq

/-- The fixed part of the status line printed by each `except`
branch, which is what distinguishes the three failure reasons to
the operator. -/
def sourceErrorTag : SourceError → String
  | .fileMissing => "⚠️  File not found: /home/pi/shared_data.json"
  | .malformedJson => "⚠️  Invalid JSON in /home/pi/shared_data.json: "
  | .ioFailure => "⚠️  Error reading sensor data: "

/-- `read_sensor_data` (lines 45-119): on a successful file read
and parse it returns the three normalized groups; every `except`
branch returns `None, None, None`, embedded as `none`.  The outcome
of the file read/parse is passed in as an `Except` argument. -/
def read_sensor_data (r : Except SourceError Raw) :
    Option (List (String × ℚ) × Occupancy × Option Spotify) :=
  match r with
  | .error _ => none
  | .ok d => some (sensors d, occupancy d, spotify_of (d.current_song.getD []))

/-- The message payload assembled by `publish_sensor_data`
(identity fields plus the three groups; the timestamp is not
modelled). -/
structure Message where
  deviceId : String
  venueId : String
  sensors : List (String × ℚ)
  occupancy : Option Occupancy
  spotify : Option Spotify
deriving DecidableEq

/-- `publish_sensor_data` (lines 176-232): returns the success flag
and the message handed to `mqtt_connection.publish` (`none` when no
publish call is made).  When `read_sensor_data` returns `None` the
function returns `False` without publishing; otherwise the message
always carries the (truthy, four-key) occupancy dict and carries
the spotify dict only when it is not `None`. -/
def publish_sensor_data (r : Except SourceError Raw) : Bool × Option Message :=
  match read_sensor_data r with
  | none => (false, none)
  | some (s, o, sp) =>
      (true, some { deviceId := "parlaylp-mainfloor-001", venueId := "parlaylp",
                    sensors := s, occupancy := some o, spotify := sp })

/-- One iteration of the `while True` loop in `main` (lines
266-271): publish (or skip), then `time.sleep(PUBLISH_INTERVAL)`;
the loop never breaks or raises on a failed tick. -/
structure TickOutcome where
  published : Option Message
  sleepSeconds : ℕ
  terminates : Bool
deriving DecidableEq

/-- One tick of the publish loop as a function of the file-read
outcome for that tick. -/
def tick (r : Except SourceError Raw) : TickOutcome :=
  { published := (publish_sensor_data r).2
  , sleepSeconds := PUBLISH_INTERVAL
  , terminates := false }

end Pulse

/-!
## Mock generator (shared formula)

Both `jimmyneutron-rpi-publisher.py` and `rpi-sensor-publisher.py`
compute `variation = (time.time() % 60) / 60` and the same five
arithmetic expressions; the jimmyneutron variant additionally
applies `round(·, 2)`.  The random draws `random.uniform(lo, hi)`
and the clock value are passed in as arguments.
-/

/-- Python's `%` on numbers with a positive divisor:
`x % y = x - y * floor(x / y)`, always in `[0, y)` for `y > 0`. -/
def pyFmod (x y : ℚ) : ℚ := x - y * ⌊x / y⌋

/-- `variation = (base_time % 60) / 60` from both
`get_mock_sensor_data` functions. -/
def mockVariation (t : ℚ) : ℚ := pyFmod t 60 / 60

/-- `mockVariation` equals the fractional part of `t / 60`. -/
theorem mockVariation_eq_fract (t : ℚ) : mockVariation t = Int.fract (t / 60) := by
  unfold mockVariation pyFmod Int.fract
  ring

/-- The variation term always lies in `[0, 1)`. -/
theorem mockVariation_mem (t : ℚ) : 0 ≤ mockVariation t ∧ mockVariation t < 1 := by
  rw [mockVariation_eq_fract]
  exact ⟨Int.fract_nonneg _, Int.fract_lt_one _⟩

/-- One invocation's random draws: the clock value `t` passed to
`time.time()` and the five `random.uniform` results. -/
structure MockDraw where
  t : ℚ
  js : ℚ
  jl : ℚ
  jit : ℚ
  jot : ℚ
  jh : ℚ
deriving DecidableEq

/-- Round half to even, the semantics of Python's built-in
`round`. -/
def roundHalfEven (q : ℚ) : ℤ :=
  if Int.fract q < 1 / 2 then ⌊q⌋
  else if 1 / 2 < Int.fract q then ⌊q⌋ + 1
  else if Even ⌊q⌋ then ⌊q⌋ else ⌊q⌋ + 1

/-- Python's `round(q, 2)`. -/
def pyRound2 (q : ℚ) : ℚ := (roundHalfEven (q * 100) : ℚ) / 100

theorem roundHalfEven_bounds (q : ℚ) : ⌊q⌋ ≤ roundHalfEven q ∧ roundHalfEven q ≤ ⌊q⌋ + 1 := by
  unfold roundHalfEven
  split
  · omega
  · split
    · omega
    · split <;> omega

/-!
## HTTP-API variant: `jimmyneutron-rpi-publisher.py`
-/

namespace Jimmy

/-- `PUBLISH_INTERVAL = 15` seconds (configuration constant). -/
def PUBLISH_INTERVAL : ℕ := 15

/-- The `timeout=5` argument of the single
`requests.get(SENSOR_API_URL, timeout=5)` call (line 51). -/
def REQUEST_TIMEOUT_SECONDS : ℕ := 5

/-- The flat JSON object returned by the local sensor API, one
optional field per key the script reads.  `current_song` is a
nested JSON object, embedded as an association list of string
fields (`none` = key absent, `some []` = empty object). -/
structure Raw where
  noise_db : Option ℚ := none
  light_level : Option ℚ := none
  temperature_f : Option ℚ := none
  humidity : Option ℚ := none
  occupancy : Option ℤ := none
  entries : Option ℤ := none
  exits : Option ℤ := none
  current_song : Option (List (List Char × List Char)) := none
deriving DecidableEq

/-- Ways the guarded block around `requests.get` can fail: network
error or timeout raised by `requests.get`, or a non-success status
raised by `response.raise_for_status()`. -/
inductive HttpError
  | networkError
  | timeout
  | statusError
deriving DecidableEq

/-- Lines 56-62: the five-field sensors dict built from the API
response with `api_data.get(key, 0)`; no `pressure` field is ever
produced by this variant. -/
def apiSensors (d : Raw) : SensorValues :=
  { sound_level := d.noise_db.getD 0
  , light_level := d.light_level.getD 0
  , indoor_temperature := d.temperature_f.getD 0
  , outdoor_temperature := d.temperature_f.getD 0
  , humidity := d.humidity.getD 0 }

/-- Lines 64-70: the occupancy dict.  `current` is read directly
from the raw `occupancy` key; `capacity` is the hard-coded 200. -/
def occupancy_of (d : Raw) : Occupancy :=
  { current := d.occupancy.getD 0
  , entries := d.entries.getD 0
  , exits := d.exits.getD 0
  , capacity := 200 }

/-- The raw `title` key of the `current_song` object. -/
def titleKey : List Char := "title".data

/-- The raw `artist` key of the `current_song` object. -/
def artistKey : List Char := "artist".data

/-- The `"Unknown"` default / sentinel string. -/
def unknownStr : List Char := "Unknown".data

/-- Lines 72-80: the spotify group.  `current_song` defaults to the
empty dict; the guard is `if current_song and
current_song.get("title") != "Unknown"`; inside, `title` and
`artist` are read with default `"Unknown"`. -/
def spotify_of (cso : Option (List (List Char × List Char))) : Option Spotify :=
  let song := cso.getD []
  if song ≠ [] ∧ song.lookup titleKey ≠ some unknownStr then
    some { current_song := (song.lookup titleKey).getD unknownStr
         , artist := (song.lookup artistKey).getD unknownStr
         , album_art := none }
  else none

/-- Lines 91-103: `get_mock_sensor_data`, with `round(·, 2)`
applied to each value. -/
def get_mock_sensor_data (m : MockDraw) : SensorValues :=
  { sound_level := pyRound2 (65 + m.js + mockVariation m.t * 15)
  , light_level := pyRound2 (300 + m.jl + mockVariation m.t * 100)
  , indoor_temperature := pyRound2 (70 + m.jit + mockVariation m.t * 4)
  , outdoor_temperature := pyRound2 (65 + m.jot)
  , humidity := pyRound2 (45 + m.jh + mockVariation m.t * 10) }

/-- `read_sensor_data` (lines 44-89) with `USE_REAL_SENSORS =
True`: on a successful request the API data is normalized; when the
`try` block raises (network error, timeout, or non-success status)
the `except` branch returns `get_mock_sensor_data(), None, None`.
The request outcome and the mock draw are passed in as
arguments. -/
def read_sensor_data (r : Except HttpError Raw) (m : MockDraw) :
    SensorValues × Option Occupancy × Option Spotify :=
  match r with
  | .ok d => (apiSensors d, some (occupancy_of d), spotify_of d.current_song)
  | .error _ => (get_mock_sensor_data m, none, none)

/-- Lines 147-153 of `publish_sensor_data`: the `sensors` object of
the outbound message, rebuilt from the five fields of the read
result (never any `pressure` key). -/
def messageSensors (s : SensorValues) : List (String × ℚ) :=
  [("sound_level", s.sound_level),
   ("light_level", s.light_level),
   ("indoor_temperature", s.indoor_temperature),
   ("outdoor_temperature", s.outdoor_temperature),
   ("humidity", s.humidity)]

end Jimmy

/-!
## Mock-only variant: `rpi-sensor-publisher.py`
-/

namespace Rpi

/-- Lines 91-108: `get_mock_sensor_data` (no rounding in this
variant). -/
def get_mock_sensor_data (m : MockDraw) : SensorValues :=
  { sound_level := 65 + m.js + mockVariation m.t * 15
  , light_level := 300 + m.jl + mockVariation m.t * 100
  , indoor_temperature := 70 + m.jit + mockVariation m.t * 4
  , outdoor_temperature := 65 + m.jot
  , humidity := 45 + m.jh + mockVariation m.t * 10 }

/-- `read_sensor_data` (lines 66-89) with the shipped configuration
`USE_REAL_SENSORS = False`: always the mock generator. -/
def read_sensor_data (m : MockDraw) : SensorValues :=
  get_mock_sensor_data m

/-- Lines 110-121: `read_spotify_data` returns a hard-coded track. -/
def read_spotify_data : Spotify :=
  { current_song := "Test Song".data
  , artist := "Test Artist".data
  , album_art := some "https://via.placeholder.com/300".data }

/-- Lines 123-134: `read_occupancy_data` returns the hard-coded
occupancy stub. -/
def read_occupancy_data : Occupancy :=
  { current := 45, entries := 120, exits := 75, capacity := 200 }

end Rpi

/-!
## Startup / shutdown model (`main` of the two publisher variants)

The `main` functions are embedded as functions of the run's
externally determined events: whether startup (certificate check
plus `mqtt_connection.connect()`) fails, and whether the
`disconnect()` call made in the `except KeyboardInterrupt` handler
raises.  The modelled scenario for the shutdown path is the one in
the claim: the operator interrupt arrives mid-sleep inside the
loop, after a successful startup.

Derivation from the Python sources:
* startup failure: the `except Exception` branch of `main` runs,
  `disconnect` is never called, the loop is never entered, and
  `main` returns 1 (jimmyneutron: `exit(main() or 0)` then exits 1;
  rpi: `sys.exit(1)`);
* interrupt with successful `disconnect()`: the handler completes,
  `main` returns `None`, and the process exits 0;
* interrupt with `disconnect()` raising: an exception raised inside
  an `except` handler is *not* caught by the sibling
  `except Exception` clause, so it propagates out of `main`
  uncaught and the interpreter exits with status 1.
-/

/-- Fatal startup failures distinguished by the scripts. -/
inductive StartupError
  | missingCredentials
  | connectFailed
deriving DecidableEq

/-- Whether the `disconnect()` call in the interrupt handler
returns normally or raises. -/
inductive DisconnectOutcome
  | success
  | failure
deriving DecidableEq

/-- Observable outcome of one process run. -/
structure RunOutcome where
  disconnectCalls : ℕ
  exitCode : ℕ
  enteredLoop : Bool
deriving DecidableEq

namespace Jimmy

/-- `main` of `jimmyneutron-rpi-publisher.py` (lines 196-254),
as a function of the startup outcome and (for an interrupt-stopped
run) the disconnect outcome. -/
def main (startup : Option StartupError) (d : DisconnectOutcome) : RunOutcome :=
  match startup with
  | some _ => { disconnectCalls := 0, exitCode := 1, enteredLoop := false }
  | none =>
    match d with
    | .success => { disconnectCalls := 1, exitCode := 0, enteredLoop := true }
    | .failure => { disconnectCalls := 1, exitCode := 1, enteredLoop := true }

end Jimmy

namespace Rpi

/-- `main` of `rpi-sensor-publisher.py` (lines 217-262): the
placeholder-identity check `VENUE_ID == "YOUR_VENUE_ID"` runs
first and calls `sys.exit(1)` before anything else. -/
def main (venueConfigured : Bool) (startup : Option StartupError)
    (d : DisconnectOutcome) : RunOutcome :=
  if venueConfigured = false then
    { disconnectCalls := 0, exitCode := 1, enteredLoop := false }
  else
    match startup with
    | some _ => { disconnectCalls := 0, exitCode := 1, enteredLoop := false }
    | none =>
      match d with
      | .success => { disconnectCalls := 1, exitCode := 0, enteredLoop := true }
      | .failure => { disconnectCalls := 1, exitCode := 1, enteredLoop := true }

end Rpi

/-!
## Claims
-/

/-- The five sensor fields the design requires in every message. -/
def requiredSensorFields : List String :=
  ["sound_level", "light_level", "indoor_temperature", "outdoor_temperature",
   "humidity"]

/-- C1: in both real-source variants, normalization of a raw reading
missing any subset of keys yields a sensors record in which every
required field is present, each value taken from the raw key when
present and defaulted to 0 when absent (`Option.getD 0` is exactly
Python's `data.get(key, 0)`); normalization is a total function, so
it never raises. -/
theorem claim1_normalize_defaults :
    (∀ d : Pulse.Raw,
      requiredSensorFields ⊆ (Pulse.sensors d).map Prod.fst ∧
      ("sound_level", d.avg_db.getD 0) ∈ Pulse.sensors d ∧
      ("light_level", d.lux.getD 0) ∈ Pulse.sensors d ∧
      ("indoor_temperature", d.temperature_f.getD 0) ∈ Pulse.sensors d ∧
      ("outdoor_temperature", d.temperature_f.getD 0) ∈ Pulse.sensors d ∧
      ("humidity", d.humidity.getD 0) ∈ Pulse.sensors d) ∧
    (∀ j : Jimmy.Raw,
      requiredSensorFields ⊆ (Jimmy.messageSensors (Jimmy.apiSensors j)).map Prod.fst ∧
      (Jimmy.apiSensors j).sound_level = j.noise_db.getD 0 ∧
      (Jimmy.apiSensors j).light_level = j.light_level.getD 0 ∧
      (Jimmy.apiSensors j).indoor_temperature = j.temperature_f.getD 0 ∧
      (Jimmy.apiSensors j).outdoor_temperature = j.temperature_f.getD 0 ∧
      (Jimmy.apiSensors j).humidity = j.humidity.getD 0) ∧
    (Pulse.sensors {} =
      [("sound_level", 0), ("light_level", 0), ("indoor_temperature", 0),
       ("outdoor_temperature", 0), ("humidity", 0), ("pressure", 0)]) ∧
    (Jimmy.apiSensors {} =
      { sound_level := 0, light_level := 0, indoor_temperature := 0,
        outdoor_temperature := 0, humidity := 0 }) := by
  refine ⟨fun d => ⟨?_, ?_, ?_, ?_, ?_, ?_⟩, fun j => ⟨?_, rfl, rfl, rfl, rfl, rfl⟩, rfl, rfl⟩ <;>
    simp [Pulse.sensors, Jimmy.messageSensors, requiredSensorFields, List.subset_def]

/-- C9: in both real-source variants the `indoor_temperature` and
`outdoor_temperature` fields are mapped from the same raw
`temperature_f` key, so every successfully normalized reading
carries the same value for both. -/
theorem claim9_indoor_eq_outdoor :
    (∀ d : Pulse.Raw,
      ("indoor_temperature", d.temperature_f.getD 0) ∈ Pulse.sensors d ∧
      ("outdoor_temperature", d.temperature_f.getD 0) ∈ Pulse.sensors d) ∧
    (∀ j : Jimmy.Raw,
      (Jimmy.apiSensors j).indoor_temperature = (Jimmy.apiSensors j).outdoor_temperature) := by
  refine ⟨fun d => ⟨?_, ?_⟩, fun j => rfl⟩ <;> simp [Pulse.sensors]

/-- C4 counterexample: in the shared-file variant a raw reading
with no `pressure` key still yields a `pressure` field (defaulted
to 0) in the emitted sensors record, so "pressure is present only
when the active source supplies it" is false. -/
theorem claim4_counterexample :
    ({} : Pulse.Raw).pressure = none ∧
    ("pressure", (0 : ℚ)) ∈ Pulse.sensors {} ∧
    "pressure" ∈ (Pulse.sensors ({} : Pulse.Raw)).map Prod.fst := by
  refine ⟨rfl, ?_, ?_⟩ <;> simp [Pulse.sensors]

/-- C4 amended: the five required sensor fields are present in
every emitted message; the `pressure` field's presence is decided
by the variant rather than by the raw reading: the shared-file
variant always emits it (defaulted to 0 when the raw key is
absent), and the HTTP-API variant never emits it. -/
theorem claim4_amended :
    (∀ d : Pulse.Raw, (Pulse.sensors d).map Prod.fst =
      ["sound_level", "light_level", "indoor_temperature", "outdoor_temperature",
       "humidity", "pressure"]) ∧
    (∀ d : Pulse.Raw, d.pressure = none → ("pressure", (0 : ℚ)) ∈ Pulse.sensors d) ∧
    (∀ s : SensorValues, (Jimmy.messageSensors s).map Prod.fst =
      ["sound_level", "light_level", "indoor_temperature", "outdoor_temperature",
       "humidity"]) ∧
    (∀ s : SensorValues, "pressure" ∉ (Jimmy.messageSensors s).map Prod.fst) := by
  refine ⟨fun d => rfl, fun d h => ?_, fun s => rfl, fun s => ?_⟩
  · simp [Pulse.sensors, h]
  · simp [Jimmy.messageSensors]

/-- C4 witness: concrete instance of the amended claim with an
absent raw `pressure` key. -/
theorem claim4_witness : ("pressure", (0 : ℚ)) ∈ Pulse.sensors {} :=
  claim4_amended.2.1 {} rfl

/-- C3 counterexample: with the docstring's own example counters
`entries = 1, exits = 2` the derived `current` is `-1`, so "all
four fields are non-negative integers" is false. -/
theorem claim3_counterexample :
    Pulse.occupancy { entries := some 1, exits := some 2 } =
      { current := -1, entries := 1, exits := 2, capacity := 400 } ∧
    (Pulse.occupancy { entries := some 1, exits := some 2 }).current < 0 := by
  decide

/-- C3 amended: the derived occupancy has `current = entries -
exits` (an integer that may be negative when exits exceed entries —
no floor at 0 is applied), `entries` and `exits` copied through,
and `capacity` taken from static configuration; `entries`, `exits`
and `capacity` are non-negative whenever the raw counters are.  The
hard-coded stub of the mock-only variant realises the documented
example `entries = 120, exits = 75, capacity = 200, current = 45`,
and the shared-file derivation also yields `current = 45` there. -/
theorem claim3_amended (d : Pulse.Raw)
    (he : 0 ≤ d.entries.getD 0) (hx : 0 ≤ d.exits.getD 0) :
    (Pulse.occupancy d).current = d.entries.getD 0 - d.exits.getD 0 ∧
    (Pulse.occupancy d).entries = d.entries.getD 0 ∧
    (Pulse.occupancy d).exits = d.exits.getD 0 ∧
    (Pulse.occupancy d).capacity = Pulse.VENUE_CAPACITY ∧
    0 ≤ (Pulse.occupancy d).entries ∧
    0 ≤ (Pulse.occupancy d).exits ∧
    0 ≤ (Pulse.occupancy d).capacity ∧
    Rpi.read_occupancy_data =
      { current := 45, entries := 120, exits := 75, capacity := 200 } ∧
    (Rpi.read_occupancy_data.current =
      Rpi.read_occupancy_data.entries - Rpi.read_occupancy_data.exits) ∧
    (Pulse.occupancy { entries := some 120, exits := some 75 }).current = 45 := by
  exact ⟨rfl, rfl, rfl, rfl, he, hx, show (0:ℤ) ≤ Pulse.VENUE_CAPACITY by decide,
    rfl, by decide, by decide⟩

/-- C3 witness: the amended claim applied to the documented example
counters. -/
theorem claim3_witness :
    (Pulse.occupancy { entries := some 120, exits := some 75 }).current = 45 :=
  (claim3_amended { entries := some 120, exits := some 75 }
    (by decide) (by decide)).2.2.2.2.2.2.2.2.2

/-- C5: in the shared-file variant, a tick whose file read fails
(for any of the three distinguished reasons) publishes nothing,
does not terminate the process, and sleeps the same
`PUBLISH_INTERVAL` as a successful tick; the three failure reasons
print pairwise distinct status lines; a successful tick does
publish. -/
theorem claim5_skip_tick :
    (∀ e : Pulse.SourceError,
      (Pulse.tick (.error e)).published = none ∧
      (Pulse.tick (.error e)).terminates = false ∧
      (Pulse.tick (.error e)).sleepSeconds = Pulse.PUBLISH_INTERVAL) ∧
    (∀ d : Pulse.Raw,
      (Pulse.tick (.ok d)).sleepSeconds = Pulse.PUBLISH_INTERVAL ∧
      (Pulse.tick (.ok d)).published ≠ none ∧
      (Pulse.tick (.ok d)).terminates = false) ∧
    (∀ e e' : Pulse.SourceError, e ≠ e' →
      Pulse.sourceErrorTag e ≠ Pulse.sourceErrorTag e') := by
  refine ⟨fun e => ⟨rfl, rfl, rfl⟩,
          fun d => ⟨rfl, by simp [Pulse.tick, Pulse.publish_sensor_data,
            Pulse.read_sensor_data], rfl⟩,
          fun e e' hne => ?_⟩
  cases e <;> cases e' <;> first | exact absurd rfl hne | decide

/-- C5 witness: the amended-free claim applied to a concrete failed
tick and a concrete pair of distinct reasons. -/
theorem claim5_witness :
    (Pulse.tick (.error Pulse.SourceError.fileMissing)).published = none ∧
    Pulse.sourceErrorTag Pulse.SourceError.fileMissing ≠
      Pulse.sourceErrorTag Pulse.SourceError.malformedJson :=
  ⟨(claim5_skip_tick.1 Pulse.SourceError.fileMissing).1,
   claim5_skip_tick.2.2 Pulse.SourceError.fileMissing Pulse.SourceError.malformedJson
     (by decide)⟩

/-- C6: in the HTTP-API variant, every failed request (network
error, timeout, or non-success status) makes that tick fall back to
the mock generator with no occupancy or spotify group; the reader
is a total function (no crash); a successful request is normalized
from the API data alone, independent of the mock draw; and the
single request carries the 5-second timeout. -/
theorem claim6_http_fallback :
    (∀ (e : Jimmy.HttpError) (m : MockDraw),
      Jimmy.read_sensor_data (.error e) m = (Jimmy.get_mock_sensor_data m, none, none)) ∧
    (∀ (d : Jimmy.Raw) (m m' : MockDraw),
      Jimmy.read_sensor_data (.ok d) m = Jimmy.read_sensor_data (.ok d) m') ∧
    Jimmy.REQUEST_TIMEOUT_SECONDS = 5 := by
  exact ⟨fun e m => rfl, fun d m m' => rfl, rfl⟩

/-- C7 counterexample: after a successful startup and an operator
interrupt, a failing `disconnect()` propagates out of the
`except KeyboardInterrupt` handler, so the process exits non-zero —
"the process exits with code 0 even if disconnect itself fails" is
false. -/
theorem claim7_counterexample :
    Jimmy.main none .failure =
      { disconnectCalls := 1, exitCode := 1, enteredLoop := true } ∧
    (Jimmy.main none .failure).exitCode ≠ 0 := by
  decide

/-- C7 amended: on an interrupt mid-sleep, `disconnect` is invoked
exactly once whether or not it fails; the process exits 0 when
`disconnect` returns normally and non-zero when `disconnect` itself
raises (the error is not swallowed); a fatal startup error (missing
credentials / unreachable endpoint, or an unconfigured identity in
the mock-only variant) exits non-zero without entering the loop and
without calling disconnect. -/
theorem claim7_amended :
    (∀ d, (Jimmy.main none d).disconnectCalls = 1) ∧
    (Jimmy.main none .success).exitCode = 0 ∧
    (Jimmy.main none .failure).exitCode ≠ 0 ∧
    (∀ e d, Jimmy.main (some e) d =
      { disconnectCalls := 0, exitCode := 1, enteredLoop := false }) ∧
    (∀ d, (Rpi.main true none d).disconnectCalls = 1) ∧
    (Rpi.main true none .success).exitCode = 0 ∧
    (Rpi.main true none .failure).exitCode ≠ 0 ∧
    (∀ e d, Rpi.main true (some e) d =
      { disconnectCalls := 0, exitCode := 1, enteredLoop := false }) ∧
    (∀ s d, Rpi.main false s d =
      { disconnectCalls := 0, exitCode := 1, enteredLoop := false }) := by
  refine ⟨fun d => ?_, rfl, by decide, fun e d => rfl, fun d => ?_, rfl, by decide,
    fun e d => rfl, fun s d => ?_⟩
  · cases d <;> rfl
  · cases d <;> rfl
  · cases s <;> rfl

/-- C10: in the HTTP-API variant the spotify group is emitted iff
the raw `current_song` object is present, non-empty, and its
`title` lookup is not the value `"Unknown"`; when emitted, a
missing `title` or `artist` key is replaced by `"Unknown"`; a track
whose title is exactly `"Unknown"` is suppressed, as are a missing
and an empty `current_song` object. -/
theorem claim10_spotify_condition :
    (∀ cso : Option (List (List Char × List Char)),
      (Jimmy.spotify_of cso).isSome = true ↔
        ∃ l, cso = some l ∧ l ≠ [] ∧ l.lookup Jimmy.titleKey ≠ some Jimmy.unknownStr) ∧
    (∀ l, l ≠ [] → l.lookup Jimmy.titleKey ≠ some Jimmy.unknownStr →
      Jimmy.spotify_of (some l) =
        some { current_song := (l.lookup Jimmy.titleKey).getD Jimmy.unknownStr
             , artist := (l.lookup Jimmy.artistKey).getD Jimmy.unknownStr
             , album_art := none }) ∧
    Jimmy.spotify_of (some [(Jimmy.titleKey, Jimmy.unknownStr)]) = none ∧
    Jimmy.spotify_of (some [(Jimmy.artistKey, ("X").data)]) =
      some { current_song := Jimmy.unknownStr, artist := ("X").data, album_art := none } ∧
    Jimmy.spotify_of none = none ∧
    Jimmy.spotify_of (some []) = none := by
  refine ⟨?_, ?_, by decide, by decide, by decide, by decide⟩
  · intro cso
    cases cso with
    | none => simp [Jimmy.spotify_of]
    | some l =>
      constructor
      · intro hs
        by_cases h : l ≠ [] ∧ l.lookup Jimmy.titleKey ≠ some Jimmy.unknownStr
        · exact ⟨l, rfl, h.1, h.2⟩
        · unfold Jimmy.spotify_of at hs
          simp only [Option.getD_some] at hs
          rw [if_neg h] at hs
          simp at hs
      · rintro ⟨l', hl', h1, h2⟩
        injection hl' with hll
        subst hll
        unfold Jimmy.spotify_of
        simp only [Option.getD_some]
        rw [if_pos ⟨h1, h2⟩]
        simp
  · intro l h1 h2
    unfold Jimmy.spotify_of
    simp only [Option.getD_some]
    rw [if_pos ⟨h1, h2⟩]

/-- C10 witness: a one-key `current_song` object with only a title
yields a spotify group with the artist defaulted to `"Unknown"`. -/
theorem claim10_witness :
    Jimmy.spotify_of (some [(Jimmy.titleKey, ("Song").data)]) =
      some { current_song := ("Song").data, artist := Jimmy.unknownStr,
             album_art := none } := by
  have h := claim10_spotify_condition.2.1 [(Jimmy.titleKey, ("Song").data)]
    (by decide) (by decide)
  rw [h]
  decide

/-- C2 counterexample: for the raw string `"A  - B"` the part
before the first `" - "` separator is `"A "` (with a trailing
space), but the code strips both parts, producing the title `"A"` —
so "the part before it as the title" is false as stated. -/
theorem claim2_counterexample :
    splitFirst Pulse.separator ("A  - B").data = some (("A ").data, ("B").data) ∧
    Pulse.spotify_of ("A  - B").data =
      some { current_song := ("A").data, artist := ("B").data, album_art := none } ∧
    (Pulse.spotify_of ("A  - B").data).map Spotify.current_song ≠ some (("A ").data) := by
  refine ⟨by decide, by decide, by decide⟩

/-- C2 amended: for a non-empty now-playing string not prefixed
with `"Error"`: if it decomposes as `a ++ " - " ++ b` at the first
occurrence of the separator (no occurrence starts strictly before
`a.length`), the group carries `a` *stripped of surrounding
whitespace* as the title and `b` *stripped* as the artist; if the
separator occurs nowhere, the whole (unstripped) string is the
title and the artist is `"Unknown"`; an empty string or an
`"Error"`-prefixed string yields no group at all. -/
theorem claim2_amended (s : List Char) :
    (s = [] → Pulse.spotify_of s = none) ∧
    (Pulse.errorSentinel.isPrefixOf s = true → Pulse.spotify_of s = none) ∧
    (s ≠ [] → ¬ (Pulse.errorSentinel.isPrefixOf s = true) →
      ((∀ a b, s = a ++ Pulse.separator ++ b →
          (∀ j, j < a.length → ¬ (Pulse.separator.isPrefixOf (s.drop j) = true)) →
          Pulse.spotify_of s =
            some { current_song := pyStrip a, artist := pyStrip b, album_art := none }) ∧
       ((∀ j, ¬ (Pulse.separator.isPrefixOf (s.drop j) = true)) →
          Pulse.spotify_of s =
            some { current_song := s, artist := ("Unknown").data, album_art := none }))) := by
  refine ⟨?_, ?_, fun hne herr => ⟨?_, ?_⟩⟩
  · intro h
    subst h
    simp [Pulse.spotify_of]
  · intro h
    simp [Pulse.spotify_of, h]
  · intro a b hdec hmin
    have hsf := splitFirst_eq_of_first_occurrence Pulse.separator (by decide) s a b hdec hmin
    unfold Pulse.spotify_of
    rw [if_pos ⟨hne, herr⟩, hsf]
  · intro hnone
    have hsf : splitFirst Pulse.separator s = none := by
      cases h : splitFirst Pulse.separator s with
      | none => rfl
      | some p =>
        obtain ⟨a, b⟩ := p
        have hd := splitFirst_decomp Pulse.separator s a b h
        have hocc : Pulse.separator.isPrefixOf (s.drop a.length) = true := by
          rw [hd, List.append_assoc, List.drop_left]
          exact List.isPrefixOf_iff_prefix.mpr ⟨b, rfl⟩
        exact absurd hocc (hnone a.length)
    unfold Pulse.spotify_of
    rw [if_pos ⟨hne, herr⟩, hsf]

/-- C2 witness: the spec's own example `"Song X - Artist Y"`
normalizes to title `"Song X"` and artist `"Artist Y"`. -/
theorem claim2_witness :
    Pulse.spotify_of ("Song X - Artist Y").data =
      some { current_song := ("Song X").data, artist := ("Artist Y").data,
             album_art := none } := by
  have h := ((claim2_amended ("Song X - Artist Y").data).2.2 (by decide) (by decide)).1
    ("Song X").data ("Artist Y").data (by decide) (by decide)
  rw [h]
  decide

/-- Rounding a value of `[55, 100)` to two decimals stays within
`[55, 100]`. -/
theorem pyRound2_sound_bounds (q : ℚ) (h1 : 55 ≤ q) (h2 : q < 100) :
    55 ≤ pyRound2 q ∧ pyRound2 q ≤ 100 := by
  obtain ⟨hl, hu⟩ := roundHalfEven_bounds (q * 100)
  have hfl : (5500 : ℤ) ≤ ⌊q * 100⌋ := by
    rw [Int.le_floor]
    push_cast
    linarith
  have hfu : ⌊q * 100⌋ < 10000 := by
    rw [Int.floor_lt]
    push_cast
    linarith
  have h5 : (5500 : ℤ) ≤ roundHalfEven (q * 100) := by omega
  have h6 : roundHalfEven (q * 100) ≤ 10000 := by omega
  unfold pyRound2
  constructor
  · rw [le_div_iff₀ (by norm_num : (0:ℚ) < 100)]
    have hc : ((5500 : ℤ) : ℚ) ≤ (roundHalfEven (q * 100) : ℚ) := by exact_mod_cast h5
    push_cast at hc
    linarith
  · rw [div_le_iff₀ (by norm_num : (0:ℚ) < 100)]
    have hc : ((roundHalfEven (q * 100) : ℤ) : ℚ) ≤ ((10000 : ℤ) : ℚ) := by
      exact_mod_cast h6
    push_cast at hc
    linarith

/-- C8 counterexample: the legal draw `jitter = 20` (within
`uniform(-10, 20)`) at clock value 45 (variation `3/4`) produces
`sound_level = 96.25`, outside the claimed band `65 ± 30` — so "the
produced sound_level lies between 35 and 95" is false. -/
theorem claim8_counterexample :
    ((-10 : ℚ) ≤ 20 ∧ (20 : ℚ) ≤ 20) ∧
    (Rpi.get_mock_sensor_data ⟨45, 20, 0, 0, 0, 0⟩).sound_level = 385 / 4 ∧
    ¬ ((Rpi.get_mock_sensor_data ⟨45, 20, 0, 0, 0, 0⟩).sound_level ≤ 95) := by
  have hv : mockVariation 45 = 3 / 4 := by
    rw [mockVariation_eq_fract]
    have h : ((45 : ℚ) / 60) = 3 / 4 := by norm_num
    rw [h, Int.fract]
    rw [Int.floor_eq_zero_iff.mpr (by constructor <;> norm_num)]
    norm_num
  have hs : (Rpi.get_mock_sensor_data ⟨45, 20, 0, 0, 0, 0⟩).sound_level = 385 / 4 := by
    show (65 : ℚ) + 20 + mockVariation 45 * 15 = 385 / 4
    rw [hv]
    norm_num
  exact ⟨⟨by decide, by decide⟩, hs, by rw [hs]; norm_num⟩

/-- C8 amended: for every mock invocation whose sound jitter lies
in the `uniform(-10, 20)` band, the unrounded `sound_level`
(mock-only variant) lies in `[55, 100)`, and the two-decimal
rounded value (HTTP-API variant) lies in `[55, 100]`; the value is
the slow phase term `variation * 15` (in `[0, 15)` by
`mockVariation_mem`) mixed with the bounded jitter around a base of
65. -/
theorem claim8_amended (m : MockDraw) (hlo : -10 ≤ m.js) (hhi : m.js ≤ 20) :
    (55 ≤ (Rpi.get_mock_sensor_data m).sound_level ∧
     (Rpi.get_mock_sensor_data m).sound_level < 100) ∧
    (55 ≤ (Jimmy.get_mock_sensor_data m).sound_level ∧
     (Jimmy.get_mock_sensor_data m).sound_level ≤ 100) := by
  obtain ⟨hv0, hv1⟩ := mockVariation_mem m.t
  have hm0 : 0 ≤ mockVariation m.t * 15 := mul_nonneg hv0 (by norm_num)
  have hm1 : mockVariation m.t * 15 < 15 := by nlinarith
  have hq1 : (55 : ℚ) ≤ 65 + m.js + mockVariation m.t * 15 := by linarith
  have hq2 : (65 : ℚ) + m.js + mockVariation m.t * 15 < 100 := by linarith
  exact ⟨⟨hq1, hq2⟩, pyRound2_sound_bounds _ hq1 hq2⟩

/-- C8 witness: the amended band holds at the concrete draw with
zero jitter and clock 0. -/
theorem claim8_witness :
    (-10 : ℚ) ≤ 0 ∧ (0 : ℚ) ≤ 20 ∧
    (55 ≤ (Rpi.get_mock_sensor_data ⟨0, 0, 0, 0, 0, 0⟩).sound_level ∧
     (Rpi.get_mock_sensor_data ⟨0, 0, 0, 0, 0, 0⟩).sound_level < 100) :=
  ⟨by decide, by decide, (claim8_amended ⟨0, 0, 0, 0, 0, 0⟩ (by decide) (by decide)).1⟩
